import Mathlib

/-!
Shallow embedding of the galaxy visualization geometry engine of
`src/pages/GalaxyMap.tsx`: the coordinate converter, the spectral/visual
mapper, the multi-star layout solver, the orbit scale resolver and the
camera framing distance, translated into Lean over the real numbers, with
theorems settling the specification's claims about them.
-/

noncomputable section

namespace GalaxyMap

/-- A star record as consumed by the geometry engine (interface `StarData`).
`mass` is held as an `Option` because the stored record may lack the field;
the code reads it through the JS fallback `s.mass || 1`. -/
structure StarData where
  name : String
  spectralClass : String
  luminosityClass : String
  surfaceTemperature : ℝ
  radius : ℝ
  mass : Option ℝ
  orbitRadius : Option ℝ
  orbitAngle : Option ℝ

/-- Orbital elements of a planet (interface `PlanetOrbit`). -/
structure PlanetOrbit where
  semiMajorAxis : ℝ
  eccentricity : ℝ
  inclination : ℝ
  orbitalPeriod : ℝ
  currentAngle : ℝ

/-- A planet record; only the fields the geometry engine reads. -/
structure Planet where
  starSystemId : String
  orbit : PlanetOrbit

/-- `const DEG2RAD = Math.PI / 180`. -/
def DEG2RAD : ℝ := Real.pi / 180

/-- `cylToCartesian`: cylindrical (azimuth in degrees, distance, elevation)
to Cartesian `[x, y, z]`. -/
def cylToCartesian (azimuth distance elevation : ℝ) : ℝ × ℝ × ℝ :=
  (distance * Real.cos (azimuth * DEG2RAD), elevation,
    distance * Real.sin (azimuth * DEG2RAD))

/-- `spectralColor`: spectral class to hex color, case-insensitive table
lookup with a white fallback. -/
def spectralColor (spectralClass : String) : String :=
  let u := spectralClass.toUpper
  if u = "O" then "#5c7aff"
  else if u = "B" then "#7a9fff"
  else if u = "A" then "#a4bfff"
  else if u = "F" then "#f5f0ff"
  else if u = "G" then "#ffe44d"
  else if u = "K" then "#ff8c00"
  else if u = "M" then "#ff4500"
  else "#ffffff"

/-- JS `s.mass || 1`: a missing mass (or the falsy number `0`) falls back
to `1`; every other number, negative ones included, is kept. -/
def effMass (m : Option ℝ) : ℝ :=
  match m with
  | none => 1
  | some v => if v = 0 then 1 else v

/-- One entry of the `infos` array built by `computeStarLayout`. -/
structure StarInfo where
  displayR : ℝ
  color : String
  mass : ℝ

/-- Default used for (always in-bounds) array indexing of `infos`. -/
def dStarInfo : StarInfo :=
  { displayR := 0, color := spectralColor "", mass := 1 }

/-- Default used for (always in-bounds) array indexing of star lists. -/
def dStar : StarData :=
  { name := "", spectralClass := "", luminosityClass := "",
    surfaceTemperature := 0, radius := 0, mass := none,
    orbitRadius := none, orbitAngle := none }

/-- The `infos` entry for the star at index 0. -/
def primaryInfo (s : StarData) : StarInfo :=
  { displayR := max 0.6 (Real.sqrt s.radius * 0.8)
    color := spectralColor s.spectralClass
    mass := effMass s.mass }

/-- The `infos` entry for a star at an index other than 0. -/
def secondaryInfo (s : StarData) : StarInfo :=
  { displayR := max 0.4 (Real.sqrt s.radius * 0.6)
    color := spectralColor s.spectralClass
    mass := effMass s.mass }

/-- `stars.map((s, i) => ...)` of `computeStarLayout`, with the `i === 0`
test split into the head and tail cases. -/
def starInfos (stars : List StarData) : List StarInfo :=
  match stars with
  | [] => []
  | s :: rest => primaryInfo s :: rest.map secondaryInfo

/-- `const safetyFactor = 2.5`. -/
def safetyFactor : ℝ := 2.5

/-- The `distCoeff` of the collision loop for the adjacent pair
`(i, (i+1) % N)`: the law-of-cosines coefficient
`sqrt(1/mi² + 1/mj² − 2·cos(2π/N)/(mi·mj))`. -/
def pairCoeff (infos : List StarInfo) (N : ℕ) (i : ℕ) : ℝ :=
  let j := (i + 1) % N
  let mi := (infos.getD i dStarInfo).mass
  let mj := (infos.getD j dStarInfo).mass
  Real.sqrt (1 / (mi * mi) + 1 / (mj * mj)
    - 2 * Real.cos (2 * Real.pi / N) / (mi * mj))

/-- The `requiredDist` of the collision loop for the adjacent pair
`(i, (i+1) % N)`. -/
def pairRequiredDist (infos : List StarInfo) (N : ℕ) (i : ℕ) : ℝ :=
  ((infos.getD i dStarInfo).displayR
    + (infos.getD ((i + 1) % N) dStarInfo).displayR) * safetyFactor

/-- The `minK` loop of `computeStarLayout`: the minimum `k` so that no
adjacent pair collides, as a fold over `i = 0 .. N-1`. -/
def collisionK (infos : List StarInfo) (N : ℕ) : ℝ :=
  (List.range N).foldl
    (fun minK i =>
      if 0 < pairCoeff infos N i then
        max minK (pairRequiredDist infos N i / pairCoeff infos N i)
      else minK)
    0

/-- Largest element of a non-empty list (JS `Math.max(...xs)`); `0` is
only the out-of-contract value for the empty spread. -/
def listMax : List ℝ → ℝ
  | [] => 0
  | x :: xs => xs.foldl max x

/-- `totalMass = infos.reduce((sum, s) => sum + s.mass, 0)`. -/
def totalMassOf (infos : List StarInfo) : ℝ :=
  (infos.map StarInfo.mass).sum

/-- The `dataK` block of `computeStarLayout`: honour data-defined orbit
separations (`orbitRadius` hints scaled by 20). -/
def dataOrbitK (stars : List StarData) (infos : List StarInfo)
    (totalMass : ℝ) : ℝ :=
  let maxDataOrbit :=
    listMax (0 :: stars.map fun s => s.orbitRadius.getD 0 * 20)
  if 0 < maxDataOrbit then
    if stars.length = 2 then
      maxDataOrbit * (infos.getD 0 dStarInfo).mass
        * (infos.getD 1 dStarInfo).mass / totalMass
    else
      maxDataOrbit * totalMass / stars.length
  else 0

/-- `const k = Math.max(minK, dataK)` of `computeStarLayout`. -/
def layoutK (stars : List StarData) : ℝ :=
  max (collisionK (starInfos stars) stars.length)
    (dataOrbitK stars (starInfos stars) (totalMassOf (starInfos stars)))

/-- The result record of `computeStarLayout`. -/
structure StarLayout where
  infos : List StarInfo
  orbitRadii : List ℝ
  maxExtent : ℝ

/-- `computeStarLayout`: multi-star orbit layout with the barycenter at
the origin; each star orbits at radius `k / m_i`. -/
def computeStarLayout (stars : List StarData) : StarLayout :=
  let N := stars.length
  let infos := starInfos stars
  if N ≤ 1 then
    { infos := infos
      orbitRadii := [0]
      maxExtent := (infos.head?.map StarInfo.displayR).getD 0.6 }
  else
    let k := layoutK stars
    { infos := infos
      orbitRadii := infos.map fun info => k / info.mass
      maxExtent := listMax (infos.map fun info => k / info.mass + info.displayR) }

/-- `const buffer = 1.5` of `computeOrbitScale`. -/
def buffer : ℝ := 1.5

/-- Unscaled perihelion of a planet: `a * (1 - e)` with
`a = sqrt(semiMajorAxis) * 9`. -/
def perihelion (p : Planet) : ℝ :=
  Real.sqrt p.orbit.semiMajorAxis * 9 * (1 - p.orbit.eccentricity)

/-- The `minPerihelion` loop of `computeOrbitScale`: starts at `Infinity`,
so over a non-empty list it is the least perihelion. -/
def minPerihelion (planets : List Planet) : ℝ :=
  match planets with
  | [] => 0
  | p :: rest => rest.foldl (fun m q => min m (perihelion q)) (perihelion p)

/-- `computeOrbitScale`: scale factor pushing planet orbits outside the
multi-star exclusion zone. -/
def computeOrbitScale (starMaxExtent : ℝ) (planets : List Planet) : ℝ :=
  if planets.length = 0 then 1
  else
    let exclusionRadius := starMaxExtent + buffer
    if exclusionRadius ≤ minPerihelion planets then 1
    else exclusionRadius / minPerihelion planets

/-- The camera framing distance of `systemCamPos`:
`Math.min(200, Math.max(10, (maxOrbitExtent * padding) / Math.tan(halfFov)))`
with `halfFov = (55 / 2) * DEG2RAD` and `padding = 1.35`. -/
def systemCamDist (maxOrbitExtent : ℝ) : ℝ :=
  let halfFov := (55 / 2) * DEG2RAD
  let padding : ℝ := 1.35
  min 200 (max 10 (maxOrbitExtent * padding / Real.tan halfFov))

/-- Clamp `x` into `[lo, hi]`. -/
def clamp (lo hi x : ℝ) : ℝ := max lo (min x hi)

/-- The position of star `i` as placed by `MultiStarSystem` at rotation
phase `t`: angle `t + 2πi/N` on a circle of the layout's radius, in the
y = 0 plane. -/
def starPosition (radii : List ℝ) (N : ℕ) (t : ℝ) (i : ℕ) : ℝ × ℝ × ℝ :=
  (radii.getD i 0 * Real.cos (t + 2 * Real.pi * i / N), 0,
    radii.getD i 0 * Real.sin (t + 2 * Real.pi * i / N))

/-- JS `Math.atan2(y, x)` as the argument of the complex number `x + y i`. -/
def atan2 (y x : ℝ) : ℝ := Complex.arg (x + y * Complex.I)

lemma perihelion_pos (p : Planet) (ha : 0 < p.orbit.semiMajorAxis)
    (he : p.orbit.eccentricity < 1) : 0 < perihelion p := by
  unfold perihelion
  have h1 : 0 < Real.sqrt p.orbit.semiMajorAxis := Real.sqrt_pos.mpr ha
  have h2 : 0 < 1 - p.orbit.eccentricity := by linarith
  have h3 : 0 < Real.sqrt p.orbit.semiMajorAxis * 9 := by linarith
  exact mul_pos h3 h2

lemma foldl_min_pos (f : Planet → ℝ) (l : List Planet) (a : ℝ) (ha : 0 < a)
    (hl : ∀ q ∈ l, 0 < f q) :
    0 < l.foldl (fun m q => min m (f q)) a := by
  induction l generalizing a with
  | nil => exact ha
  | cons q rest ih =>
    simp only [List.foldl_cons]
    exact ih _ (lt_min ha (hl q (by simp)))
      (fun r hr => hl r (by simp [hr]))

lemma minPerihelion_pos (planets : List Planet) (hne : planets ≠ [])
    (hp : ∀ p ∈ planets, 0 < p.orbit.semiMajorAxis ∧
      p.orbit.eccentricity < 1) :
    0 < minPerihelion planets := by
  match planets, hne with
  | p :: rest, _ =>
    unfold minPerihelion
    have hp0 := hp p (by simp)
    exact foldl_min_pos _ rest _ (perihelion_pos p hp0.1 hp0.2)
      (fun r hr => perihelion_pos r (hp r (by simp [hr])).1 (hp r (by simp [hr])).2)

/-- C5: for a single-star input the solver returns orbit radius exactly 0,
and `maxExtent` equals that star's returned display radius. -/
theorem computeStarLayout_single (s : StarData) :
    (computeStarLayout [s]).orbitRadii = [0] ∧
    (computeStarLayout [s]).maxExtent =
      ((computeStarLayout [s]).infos.getD 0 dStarInfo).displayR := by
  simp [computeStarLayout, starInfos]

/-- C9: the solver on an empty star list returns the documented fallback
layout (`maxExtent` 0.6), and the resolver on an empty planet list returns
scale 1: neither input reaches an error branch. -/
theorem empty_inputs_defined :
    computeStarLayout [] =
      { infos := [], orbitRadii := [0], maxExtent := 0.6 } ∧
    ∀ E : ℝ, computeOrbitScale E [] = 1 := by
  constructor
  · simp [computeStarLayout, starInfos]
  · intro E
    simp [computeOrbitScale]

/-- C7: the camera framing distance is the raw FOV-based distance clamped
into `[10, 200]`, hence always lies in that interval. -/
theorem systemCamDist_spec (e : ℝ) :
    systemCamDist e = clamp 10 200 (e * 1.35 / Real.tan ((55 / 2) * DEG2RAD)) ∧
    10 ≤ systemCamDist e ∧ systemCamDist e ≤ 200 := by
  have hdef : systemCamDist e
      = min 200 (max 10 (e * 1.35 / Real.tan ((55 / 2) * DEG2RAD))) := rfl
  refine ⟨?_, ?_, ?_⟩
  · rw [hdef]
    set x := e * 1.35 / Real.tan ((55 / 2) * DEG2RAD) with hx
    unfold clamp
    rcases le_total x 10 with h | h
    · rw [max_eq_left h, min_eq_right (by norm_num : (10 : ℝ) ≤ 200),
        min_eq_left (by linarith : x ≤ 200), max_eq_left h]
    · rcases le_total x 200 with h2 | h2
      · rw [max_eq_right h, min_eq_right h2, min_eq_left h2, max_eq_right h]
      · rw [max_eq_right h, min_eq_left h2, min_eq_right h2,
          max_eq_right (by norm_num : (10 : ℝ) ≤ 200)]
  · rw [hdef]
    exact le_min (by norm_num) (le_max_left _ _)
  · rw [hdef]
    exact min_le_left _ _

/-- C3: the orbit scale resolver returns 1 on an empty planet list; returns
1 when the least unscaled perihelion is at least `E + 1.5`; and otherwise
returns `(E + 1.5) / minPerihelion`, so that the returned scale times the
least perihelion is exactly `E + 1.5`. -/
theorem computeOrbitScale_spec (E : ℝ) (planets : List Planet)
    (hp : ∀ p ∈ planets, 0 < p.orbit.semiMajorAxis ∧
      0 ≤ p.orbit.eccentricity ∧ p.orbit.eccentricity < 1) :
    (planets = [] → computeOrbitScale E planets = 1) ∧
    (planets ≠ [] → E + 1.5 ≤ minPerihelion planets →
      computeOrbitScale E planets = 1) ∧
    (planets ≠ [] → minPerihelion planets < E + 1.5 →
      computeOrbitScale E planets = (E + 1.5) / minPerihelion planets ∧
      computeOrbitScale E planets * minPerihelion planets = E + 1.5) := by
  have hb : buffer = 1.5 := rfl
  refine ⟨?_, ?_, ?_⟩
  · intro h
    subst h
    simp [computeOrbitScale]
  · intro hne hge
    have hlen : planets.length ≠ 0 := by
      simpa [List.length_eq_zero] using hne
    simp only [computeOrbitScale, if_neg hlen]
    rw [if_pos (by rw [hb]; exact hge)]
  · intro hne hlt
    have hlen : planets.length ≠ 0 := by
      simpa [List.length_eq_zero] using hne
    have hpos : 0 < minPerihelion planets :=
      minPerihelion_pos planets hne
        (fun p hp2 => ⟨(hp p hp2).1, (hp p hp2).2.2⟩)
    have hval : computeOrbitScale E planets = (E + 1.5) / minPerihelion planets := by
      simp only [computeOrbitScale, if_neg hlen]
      rw [if_neg (by rw [hb]; exact not_le.mpr hlt), hb]
    exact ⟨hval, by rw [hval]; exact div_mul_cancel₀ _ (ne_of_gt hpos)⟩

/-- A single planet with semi-major axis 4 and eccentricity 1/2 (unscaled
perihelion 9), as a concrete input. -/
def planet1 : Planet :=
  { starSystemId := "sys"
    orbit := { semiMajorAxis := 4, eccentricity := 0.5, inclination := 0,
               orbitalPeriod := 1, currentAngle := 0 } }

theorem computeOrbitScale_spec_witness :
    (∀ p ∈ [planet1], 0 < p.orbit.semiMajorAxis ∧
      0 ≤ p.orbit.eccentricity ∧ p.orbit.eccentricity < 1) ∧
    ((([planet1] : List Planet) = [] → computeOrbitScale 0 [planet1] = 1) ∧
      (([planet1] : List Planet) ≠ [] → (0 : ℝ) + 1.5 ≤ minPerihelion [planet1] →
        computeOrbitScale 0 [planet1] = 1) ∧
      (([planet1] : List Planet) ≠ [] → minPerihelion [planet1] < (0 : ℝ) + 1.5 →
        computeOrbitScale 0 [planet1] = ((0 : ℝ) + 1.5) / minPerihelion [planet1] ∧
        computeOrbitScale 0 [planet1] * minPerihelion [planet1] = (0 : ℝ) + 1.5)) :=
  ⟨by
    intro p hp
    simp only [List.mem_singleton] at hp
    subst hp
    refine ⟨by norm_num [planet1], by norm_num [planet1], by norm_num [planet1]⟩,
  computeOrbitScale_spec 0 [planet1] (by
    intro p hp
    simp only [List.mem_singleton] at hp
    subst hp
    refine ⟨by norm_num [planet1], by norm_num [planet1], by norm_num [planet1]⟩)⟩

/-- C4: for a non-negative star-layout extent and planets with positive
semi-major axis and eccentricity in `[0, 1)`, the orbit scale is at least
1: orbits are only pushed outward. -/
theorem computeOrbitScale_ge_one (E : ℝ) (planets : List Planet) (_hE : 0 ≤ E)
    (hp : ∀ p ∈ planets, 0 < p.orbit.semiMajorAxis ∧
      0 ≤ p.orbit.eccentricity ∧ p.orbit.eccentricity < 1) :
    1 ≤ computeOrbitScale E planets := by
  by_cases h0 : planets.length = 0
  · simp [computeOrbitScale, h0]
  · have hne : planets ≠ [] := by
      simpa [Ne, List.length_eq_zero] using h0
    have hpos : 0 < minPerihelion planets :=
      minPerihelion_pos planets hne
        (fun p hp2 => ⟨(hp p hp2).1, (hp p hp2).2.2⟩)
    simp only [computeOrbitScale, if_neg h0]
    by_cases h1 : E + buffer ≤ minPerihelion planets
    · rw [if_pos h1]
    · rw [if_neg h1]
      exact (one_le_div hpos).mpr (le_of_not_le h1)

theorem computeOrbitScale_ge_one_witness :
    ((0 : ℝ) ≤ 2 ∧ ∀ p ∈ [planet1], 0 < p.orbit.semiMajorAxis ∧
      0 ≤ p.orbit.eccentricity ∧ p.orbit.eccentricity < 1) ∧
    1 ≤ computeOrbitScale 2 [planet1] :=
  ⟨⟨by norm_num, by
    intro p hp
    simp only [List.mem_singleton] at hp
    subst hp
    refine ⟨by norm_num [planet1], by norm_num [planet1], by norm_num [planet1]⟩⟩,
  computeOrbitScale_ge_one 2 [planet1] (by norm_num) (by
    intro p hp
    simp only [List.mem_singleton] at hp
    subst hp
    refine ⟨by norm_num [planet1], by norm_num [planet1], by norm_num [planet1]⟩)⟩

lemma effMass_pos (o : Option ℝ) (h : ∃ m, o = some m ∧ 0 < m) :
    0 < effMass o := by
  rcases h with ⟨m, rfl, hm⟩
  simp only [effMass]
  rw [if_neg (ne_of_gt hm)]
  exact hm

lemma starInfos_length (stars : List StarData) :
    (starInfos stars).length = stars.length := by
  cases stars with
  | nil => rfl
  | cons s rest => simp [starInfos]

lemma starInfos_getD (stars : List StarData) (i : ℕ) (hi : i < stars.length) :
    (starInfos stars).getD i dStarInfo =
      if i = 0 then primaryInfo (stars.getD i dStar)
      else secondaryInfo (stars.getD i dStar) := by
  match stars, i with
  | [], i => simp at hi
  | s :: rest, 0 => simp [starInfos]
  | s :: rest, n + 1 =>
    have hn : n < rest.length := by simpa using hi
    have hmap : n < (rest.map secondaryInfo).length := by simpa using hn
    simp only [starInfos, List.getD_cons_succ, if_neg (Nat.succ_ne_zero n)]
    rw [List.getD_eq_getElem _ _ hmap, List.getElem_map,
      ← List.getD_eq_getElem rest dStar hn]

lemma starInfos_getD_mass (stars : List StarData) (i : ℕ)
    (hi : i < stars.length) :
    ((starInfos stars).getD i dStarInfo).mass =
      effMass ((stars.getD i dStar).mass) := by
  rw [starInfos_getD stars i hi]
  by_cases h : i = 0 <;> simp [h, primaryInfo, secondaryInfo]

lemma starInfos_mass_pos (stars : List StarData)
    (hm : ∀ s ∈ stars, ∃ m, s.mass = some m ∧ 0 < m)
    (i : ℕ) (hi : i < stars.length) :
    0 < ((starInfos stars).getD i dStarInfo).mass := by
  rw [starInfos_getD_mass stars i hi]
  refine effMass_pos _ (hm _ ?_)
  rw [List.getD_eq_getElem _ _ hi]
  exact List.getElem_mem hi

lemma foldl_collect_le_init (c q : ℕ → ℝ) (l : List ℕ) (a : ℝ) :
    a ≤ l.foldl (fun acc i => if 0 < c i then max acc (q i) else acc) a := by
  induction l generalizing a with
  | nil => exact le_refl a
  | cons x xs ih =>
    simp only [List.foldl_cons]
    refine le_trans ?_ (ih _)
    by_cases h : 0 < c x
    · rw [if_pos h]
      exact le_max_left _ _
    · rw [if_neg h]

lemma le_foldl_collect (c q : ℕ → ℝ) (l : List ℕ) (a : ℝ) (i : ℕ)
    (hi : i ∈ l) (hc : 0 < c i) :
    q i ≤ l.foldl (fun acc j => if 0 < c j then max acc (q j) else acc) a := by
  induction l generalizing a with
  | nil => cases hi
  | cons x xs ih =>
    simp only [List.foldl_cons]
    rcases List.mem_cons.mp hi with rfl | hmem
    · refine le_trans ?_ (foldl_collect_le_init c q xs _)
      rw [if_pos hc]
      exact le_max_right _ _
    · exact ih _ hmem

lemma collisionK_nonneg (infos : List StarInfo) (N : ℕ) :
    0 ≤ collisionK infos N := by
  unfold collisionK
  exact foldl_collect_le_init (pairCoeff infos N)
    (fun i => pairRequiredDist infos N i / pairCoeff infos N i) (List.range N) 0

lemma le_collisionK (infos : List StarInfo) (N : ℕ) (i : ℕ) (hi : i < N)
    (hc : 0 < pairCoeff infos N i) :
    pairRequiredDist infos N i / pairCoeff infos N i ≤ collisionK infos N := by
  unfold collisionK
  exact le_foldl_collect (pairCoeff infos N)
    (fun j => pairRequiredDist infos N j / pairCoeff infos N j) (List.range N) 0 i
    (List.mem_range.mpr hi) hc

lemma cos_angleStep_lt_one (N : ℕ) (hN : 2 ≤ N) :
    Real.cos (2 * Real.pi / N) < 1 := by
  have hNpos : (0 : ℝ) < N := by
    have : 0 < N := by omega
    exact_mod_cast this
  have hN2 : (2 : ℝ) ≤ N := by exact_mod_cast hN
  have h1 : 0 < 2 * Real.pi / N := by positivity
  have h2 : 2 * Real.pi / N ≤ Real.pi := by
    rw [div_le_iff₀ hNpos]
    nlinarith [Real.pi_pos]
  have := Real.strictAntiOn_cos (Set.mem_Icc.mpr ⟨le_refl 0, Real.pi_pos.le⟩)
    (Set.mem_Icc.mpr ⟨h1.le, h2⟩) h1
  rwa [Real.cos_zero] at this

lemma pairCoeff_pos (infos : List StarInfo) (N : ℕ) (i : ℕ) (hN : 2 ≤ N)
    (hmi : 0 < (infos.getD i dStarInfo).mass)
    (hmj : 0 < (infos.getD ((i + 1) % N) dStarInfo).mass) :
    0 < pairCoeff infos N i := by
  unfold pairCoeff
  rw [Real.sqrt_pos]
  set mi := (infos.getD i dStarInfo).mass with hmi_def
  set mj := (infos.getD ((i + 1) % N) dStarInfo).mass with hmj_def
  have hcos := cos_angleStep_lt_one N hN
  have h2 : 0 < mi * mj := mul_pos hmi hmj
  have hrw : 1 / (mi * mi) + 1 / (mj * mj)
      - 2 * Real.cos (2 * Real.pi / N) / (mi * mj)
      = (mj * mj + mi * mi - 2 * Real.cos (2 * Real.pi / N) * (mi * mj))
        / ((mi * mi) * (mj * mj)) := by
    field_simp
    ring
  rw [hrw]
  apply div_pos
  · nlinarith [sq_nonneg (mi - mj),
      mul_pos (show (0 : ℝ) < 1 - Real.cos (2 * Real.pi / N) by linarith) h2]
  · positivity

lemma layoutK_nonneg (stars : List StarData) : 0 ≤ layoutK stars :=
  le_trans (collisionK_nonneg (starInfos stars) stars.length) (le_max_left _ _)

lemma computeStarLayout_infos (stars : List StarData) :
    (computeStarLayout stars).infos = starInfos stars := by
  by_cases h : stars.length ≤ 1 <;> simp [computeStarLayout, h]

lemma computeStarLayout_orbitRadii (stars : List StarData)
    (hN : 2 ≤ stars.length) :
    (computeStarLayout stars).orbitRadii =
      (starInfos stars).map fun info => layoutK stars / info.mass := by
  have h : ¬ stars.length ≤ 1 := by omega
  simp [computeStarLayout, h]

lemma orbitRadii_getD (stars : List StarData) (hN : 2 ≤ stars.length)
    (i : ℕ) (hi : i < stars.length) :
    (computeStarLayout stars).orbitRadii.getD i 0 =
      layoutK stars / ((starInfos stars).getD i dStarInfo).mass := by
  rw [computeStarLayout_orbitRadii stars hN]
  have hl : i < (starInfos stars).length := by
    rw [starInfos_length]
    exact hi
  have hml : i < ((starInfos stars).map fun info => layoutK stars / info.mass).length := by
    simpa using hl
  rw [List.getD_eq_getElem _ _ hml, List.getElem_map,
    ← List.getD_eq_getElem _ dStarInfo hl]

/-- C1: for at least two stars with positive masses, the solver's `k` keeps
every adjacent pair separated: the law-of-cosines distance between the two
points at the returned orbit radii, `2π/N` apart, is at least
`(displayRadius_i + displayRadius_j) * 2.5`. -/
theorem computeStarLayout_separation (stars : List StarData)
    (hN : 2 ≤ stars.length)
    (hm : ∀ s ∈ stars, ∃ m, s.mass = some m ∧ 0 < m)
    (i : ℕ) (hi : i < stars.length) :
    (((computeStarLayout stars).infos.getD i dStarInfo).displayR
      + ((computeStarLayout stars).infos.getD ((i + 1) % stars.length)
          dStarInfo).displayR) * 2.5
    ≤ Real.sqrt
        ((computeStarLayout stars).orbitRadii.getD i 0 ^ 2
          + (computeStarLayout stars).orbitRadii.getD
              ((i + 1) % stars.length) 0 ^ 2
          - 2 * (computeStarLayout stars).orbitRadii.getD i 0
            * (computeStarLayout stars).orbitRadii.getD
                ((i + 1) % stars.length) 0
            * Real.cos (2 * Real.pi / stars.length)) := by
  have hj : (i + 1) % stars.length < stars.length := Nat.mod_lt _ (by omega)
  have hmi := starInfos_mass_pos stars hm i hi
  have hmj := starInfos_mass_pos stars hm ((i + 1) % stars.length) hj
  have hc : 0 < pairCoeff (starInfos stars) stars.length i :=
    pairCoeff_pos (starInfos stars) stars.length i hN hmi hmj
  have hk0 : 0 ≤ layoutK stars := layoutK_nonneg stars
  rw [computeStarLayout_infos, orbitRadii_getD stars hN i hi,
    orbitRadii_getD stars hN _ hj]
  set k := layoutK stars with hk_def
  set mi := ((starInfos stars).getD i dStarInfo).mass with hmi_def
  set mj := ((starInfos stars).getD ((i + 1) % stars.length) dStarInfo).mass
    with hmj_def
  have hex : (k / mi) ^ 2 + (k / mj) ^ 2
      - 2 * (k / mi) * (k / mj) * Real.cos (2 * Real.pi / stars.length)
      = k ^ 2 * (1 / (mi * mi) + 1 / (mj * mj)
          - 2 * Real.cos (2 * Real.pi / stars.length) / (mi * mj)) := by
    field_simp
    ring
  rw [hex, Real.sqrt_mul (sq_nonneg k), Real.sqrt_sq hk0]
  have hsqrt : Real.sqrt (1 / (mi * mi) + 1 / (mj * mj)
      - 2 * Real.cos (2 * Real.pi / stars.length) / (mi * mj))
      = pairCoeff (starInfos stars) stars.length i := rfl
  rw [hsqrt]
  have hKge : pairRequiredDist (starInfos stars) stars.length i
      / pairCoeff (starInfos stars) stars.length i ≤ k :=
    le_trans (le_collisionK (starInfos stars) stars.length i hi hc)
      (le_max_left _ _)
  have hreq := (div_le_iff₀ hc).mp hKge
  calc (((starInfos stars).getD i dStarInfo).displayR
        + ((starInfos stars).getD ((i + 1) % stars.length) dStarInfo).displayR)
        * 2.5
      = pairRequiredDist (starInfos stars) stars.length i := rfl
    _ ≤ k * pairCoeff (starInfos stars) stars.length i := hreq

/-- Concrete star: radius 1/4 (display radius 0.6 at index 0), mass 1. -/
def starA : StarData :=
  { name := "A", spectralClass := "G", luminosityClass := "V",
    surfaceTemperature := 5800, radius := 0.25, mass := some 1,
    orbitRadius := none, orbitAngle := none }

/-- Concrete companion: radius 1 (display radius 0.6 at index 1), mass 1. -/
def starB : StarData :=
  { name := "B", spectralClass := "M", luminosityClass := "V",
    surfaceTemperature := 3000, radius := 1, mass := some 1,
    orbitRadius := none, orbitAngle := none }

/-- `starB` with its mass field set to the negative value −1. -/
def starNeg : StarData := { starB with mass := some (-1) }

lemma sqrt_quarter : Real.sqrt 0.25 = 0.5 := by
  rw [show (0.25 : ℝ) = 0.5 ^ 2 by norm_num, Real.sqrt_sq (by norm_num)]

lemma sqrt_four : Real.sqrt 4 = 2 := by
  rw [show (4 : ℝ) = 2 ^ 2 by norm_num, Real.sqrt_sq (by norm_num)]

lemma cos_pair_angle : Real.cos (2 * Real.pi / ((2 : ℕ) : ℝ)) = -1 := by
  rw [show 2 * Real.pi / ((2 : ℕ) : ℝ) = Real.pi by push_cast; ring, Real.cos_pi]

lemma starA_displayR : (primaryInfo starA).displayR = 0.6 := by
  have h : Real.sqrt starA.radius * 0.8 ≤ 0.6 := by
    rw [show starA.radius = 0.25 from rfl, sqrt_quarter]
    norm_num
  exact max_eq_left h

lemma starB_displayR : (secondaryInfo starB).displayR = 0.6 := by
  show max 0.4 (Real.sqrt starB.radius * 0.6) = 0.6
  rw [show starB.radius = (1 : ℝ) from rfl, Real.sqrt_one,
    max_eq_right (by norm_num : (0.4 : ℝ) ≤ 1 * 0.6)]
  norm_num

lemma starA_mass : (primaryInfo starA).mass = 1 := by
  show effMass (some 1) = 1
  norm_num [effMass]

lemma starB_mass : (secondaryInfo starB).mass = 1 := by
  show effMass (some 1) = 1
  norm_num [effMass]

lemma starNeg_mass : (secondaryInfo starNeg).mass = -1 := by
  show effMass (some (-1)) = -1
  norm_num [effMass]

lemma pairCoeff_AB_0 : pairCoeff (starInfos [starA, starB]) 2 0 = 2 := by
  show Real.sqrt (1 / ((primaryInfo starA).mass * (primaryInfo starA).mass)
    + 1 / ((secondaryInfo starB).mass * (secondaryInfo starB).mass)
    - 2 * Real.cos (2 * Real.pi / ((2 : ℕ) : ℝ))
      / ((primaryInfo starA).mass * (secondaryInfo starB).mass)) = 2
  rw [starA_mass, starB_mass, cos_pair_angle,
    show (1 : ℝ) / (1 * 1) + 1 / (1 * 1) - 2 * (-1) / (1 * 1) = 4 by norm_num,
    sqrt_four]

lemma pairCoeff_AB_1 : pairCoeff (starInfos [starA, starB]) 2 1 = 2 := by
  show Real.sqrt (1 / ((secondaryInfo starB).mass * (secondaryInfo starB).mass)
    + 1 / ((primaryInfo starA).mass * (primaryInfo starA).mass)
    - 2 * Real.cos (2 * Real.pi / ((2 : ℕ) : ℝ))
      / ((secondaryInfo starB).mass * (primaryInfo starA).mass)) = 2
  rw [starA_mass, starB_mass, cos_pair_angle,
    show (1 : ℝ) / (1 * 1) + 1 / (1 * 1) - 2 * (-1) / (1 * 1) = 4 by norm_num,
    sqrt_four]

lemma pairReq_AB_0 : pairRequiredDist (starInfos [starA, starB]) 2 0 = 3 := by
  show ((primaryInfo starA).displayR + (secondaryInfo starB).displayR)
    * safetyFactor = 3
  rw [starA_displayR, starB_displayR]
  norm_num [safetyFactor]

lemma pairReq_AB_1 : pairRequiredDist (starInfos [starA, starB]) 2 1 = 3 := by
  show ((secondaryInfo starB).displayR + (primaryInfo starA).displayR)
    * safetyFactor = 3
  rw [starA_displayR, starB_displayR]
  norm_num [safetyFactor]

lemma collisionK_AB : collisionK (starInfos [starA, starB]) 2 = 1.5 := by
  unfold collisionK
  rw [show List.range 2 = [0, 1] from rfl]
  simp only [List.foldl_cons, List.foldl_nil]
  rw [pairCoeff_AB_0, pairCoeff_AB_1, pairReq_AB_0, pairReq_AB_1]
  norm_num [max_def]

lemma dataOrbitK_AB : dataOrbitK [starA, starB] (starInfos [starA, starB])
    (totalMassOf (starInfos [starA, starB])) = 0 := by
  norm_num [dataOrbitK, listMax, starA, starB]

lemma layoutK_AB : layoutK [starA, starB] = 1.5 := by
  calc layoutK [starA, starB]
      = max (collisionK (starInfos [starA, starB]) 2)
          (dataOrbitK [starA, starB] (starInfos [starA, starB])
            (totalMassOf (starInfos [starA, starB]))) := rfl
    _ = max 1.5 0 := by rw [collisionK_AB, dataOrbitK_AB]
    _ = 1.5 := max_eq_left (by norm_num)

lemma orbitRadii_AB : (computeStarLayout [starA, starB]).orbitRadii
    = [1.5, 1.5] := by
  rw [computeStarLayout_orbitRadii _ (by simp)]
  show [layoutK [starA, starB] / (primaryInfo starA).mass,
    layoutK [starA, starB] / (secondaryInfo starB).mass] = [1.5, 1.5]
  rw [layoutK_AB, starA_mass, starB_mass]
  norm_num

theorem computeStarLayout_separation_witness :
    (2 ≤ ([starA, starB] : List StarData).length ∧
      ∀ s ∈ [starA, starB], ∃ m, s.mass = some m ∧ 0 < m) ∧
    ((((computeStarLayout [starA, starB]).infos.getD 0 dStarInfo).displayR
        + ((computeStarLayout [starA, starB]).infos.getD 1 dStarInfo).displayR)
        * 2.5
      ≤ Real.sqrt
          ((computeStarLayout [starA, starB]).orbitRadii.getD 0 0 ^ 2
            + (computeStarLayout [starA, starB]).orbitRadii.getD 1 0 ^ 2
            - 2 * (computeStarLayout [starA, starB]).orbitRadii.getD 0 0
              * (computeStarLayout [starA, starB]).orbitRadii.getD 1 0
              * Real.cos (2 * Real.pi / ([starA, starB] : List StarData).length))) ∧
    (computeStarLayout [starA, starB]).orbitRadii.getD 0 0
      + (computeStarLayout [starA, starB]).orbitRadii.getD 1 0 ≥ 3 := by
  have hmass : ∀ s ∈ [starA, starB], ∃ m, s.mass = some m ∧ 0 < m := by
    intro s hs
    simp only [List.mem_cons, List.not_mem_nil, or_false] at hs
    rcases hs with rfl | rfl
    · exact ⟨1, rfl, one_pos⟩
    · exact ⟨1, rfl, one_pos⟩
  refine ⟨⟨by simp, hmass⟩, ?_, ?_⟩
  · exact computeStarLayout_separation [starA, starB] (by simp) hmass 0 (by simp)
  · rw [orbitRadii_AB]
    norm_num

lemma pairCoeff_ANeg_0 : pairCoeff (starInfos [starA, starNeg]) 2 0 = 0 := by
  show Real.sqrt (1 / ((primaryInfo starA).mass * (primaryInfo starA).mass)
    + 1 / ((secondaryInfo starNeg).mass * (secondaryInfo starNeg).mass)
    - 2 * Real.cos (2 * Real.pi / ((2 : ℕ) : ℝ))
      / ((primaryInfo starA).mass * (secondaryInfo starNeg).mass)) = 0
  rw [starA_mass, starNeg_mass, cos_pair_angle,
    show (1 : ℝ) / (1 * 1) + 1 / (-1 * -1) - 2 * (-1) / (1 * -1) = 0 by norm_num,
    Real.sqrt_zero]

lemma pairCoeff_ANeg_1 : pairCoeff (starInfos [starA, starNeg]) 2 1 = 0 := by
  show Real.sqrt (1 / ((secondaryInfo starNeg).mass * (secondaryInfo starNeg).mass)
    + 1 / ((primaryInfo starA).mass * (primaryInfo starA).mass)
    - 2 * Real.cos (2 * Real.pi / ((2 : ℕ) : ℝ))
      / ((secondaryInfo starNeg).mass * (primaryInfo starA).mass)) = 0
  rw [starA_mass, starNeg_mass, cos_pair_angle,
    show (1 : ℝ) / (-1 * -1) + 1 / (1 * 1) - 2 * (-1) / (-1 * 1) = 0 by norm_num,
    Real.sqrt_zero]

lemma collisionK_ANeg : collisionK (starInfos [starA, starNeg]) 2 = 0 := by
  unfold collisionK
  rw [show List.range 2 = [0, 1] from rfl]
  simp only [List.foldl_cons, List.foldl_nil]
  rw [pairCoeff_ANeg_0, pairCoeff_ANeg_1]
  norm_num

lemma dataOrbitK_ANeg : dataOrbitK [starA, starNeg] (starInfos [starA, starNeg])
    (totalMassOf (starInfos [starA, starNeg])) = 0 := by
  norm_num [dataOrbitK, listMax, starA, starNeg, starB]

lemma layoutK_ANeg : layoutK [starA, starNeg] = 0 := by
  calc layoutK [starA, starNeg]
      = max (collisionK (starInfos [starA, starNeg]) 2)
          (dataOrbitK [starA, starNeg] (starInfos [starA, starNeg])
            (totalMassOf (starInfos [starA, starNeg]))) := rfl
    _ = max 0 0 := by rw [collisionK_ANeg, dataOrbitK_ANeg]
    _ = 0 := max_self 0

lemma orbitRadii_ANeg : (computeStarLayout [starA, starNeg]).orbitRadii
    = [0, 0] := by
  rw [computeStarLayout_orbitRadii _ (by simp)]
  show [layoutK [starA, starNeg] / (primaryInfo starA).mass,
    layoutK [starA, starNeg] / (secondaryInfo starNeg).mass] = [0, 0]
  rw [layoutK_ANeg, starA_mass, starNeg_mass]
  norm_num

theorem mass_default_cex :
    ¬ (computeStarLayout [starA, starNeg]
      = computeStarLayout [starA, { starNeg with mass := some 1 }]) := by
  intro h
  have h2 := congrArg StarLayout.orbitRadii h
  have hB : ({ starNeg with mass := some 1 } : StarData) = starB := rfl
  rw [orbitRadii_ANeg, hB, orbitRadii_AB] at h2
  have h3 : (0 : ℝ) = 1.5 := by
    injection h2 with h3 _
  norm_num at h3

lemma map_set_getD {α β : Type} (l : List α) (i : ℕ) (a : α) (d : α)
    (f : α → β) (hf : f a = f (l.getD i d)) (hi : i < l.length) :
    (l.set i a).map f = l.map f := by
  apply List.ext_getElem
  · simp
  · intro n h1 h2
    have hn : n < l.length := by simpa using h2
    have hn1 : n < (l.set i a).length := by simpa using hn
    rw [List.getElem_map, List.getElem_map, List.getElem_set]
    by_cases hin : i = n
    · subst hin
      rw [if_pos rfl, hf, List.getD_eq_getElem _ _ hi]
    · rw [if_neg hin]

lemma starInfos_set (stars : List StarData) (i : ℕ) (a : StarData)
    (hi : i < stars.length)
    (hpri : primaryInfo a = primaryInfo (stars.getD i dStar))
    (hsec : secondaryInfo a = secondaryInfo (stars.getD i dStar)) :
    starInfos (stars.set i a) = starInfos stars := by
  match stars, i with
  | [], i => simp at hi
  | s :: rest, 0 =>
    show primaryInfo a :: rest.map secondaryInfo
      = primaryInfo s :: rest.map secondaryInfo
    rw [show primaryInfo ((s :: rest).getD 0 dStar) = primaryInfo s from rfl] at hpri
    rw [hpri]
  | s :: rest, n + 1 =>
    show primaryInfo s :: (rest.set n a).map secondaryInfo
      = primaryInfo s :: rest.map secondaryInfo
    congr 1
    exact map_set_getD rest n a dStar secondaryInfo (by simpa using hsec)
      (by simpa using hi)

lemma primaryInfo_congr (a b : StarData) (hr : a.radius = b.radius)
    (hc : a.spectralClass = b.spectralClass)
    (hm : effMass a.mass = effMass b.mass) :
    primaryInfo a = primaryInfo b := by
  unfold primaryInfo
  rw [hr, hc, hm]

lemma secondaryInfo_congr (a b : StarData) (hr : a.radius = b.radius)
    (hc : a.spectralClass = b.spectralClass)
    (hm : effMass a.mass = effMass b.mass) :
    secondaryInfo a = secondaryInfo b := by
  unfold secondaryInfo
  rw [hr, hc, hm]

lemma computeStarLayout_congr (s₁ s₂ : List StarData)
    (hlen : s₁.length = s₂.length)
    (hinfo : starInfos s₁ = starInfos s₂)
    (hhint : s₁.map (fun s => s.orbitRadius) = s₂.map (fun s => s.orbitRadius)) :
    computeStarLayout s₁ = computeStarLayout s₂ := by
  have hhint2 : (s₁.map fun s => s.orbitRadius.getD 0 * 20)
      = s₂.map fun s => s.orbitRadius.getD 0 * 20 := by
    have h := congrArg (List.map fun o : Option ℝ => o.getD 0 * 20) hhint
    simpa [List.map_map, Function.comp] using h
  have hK : layoutK s₁ = layoutK s₂ := by
    unfold layoutK dataOrbitK collisionK
    rw [hinfo, hlen, hhint2]
  unfold computeStarLayout
  rw [hinfo, hlen, hK]

/-- C2 (amended): a star whose stored mass is zero or missing is laid out
as if its mass were 1; a negative stored mass, however, is used as-is. -/
theorem computeStarLayout_mass_default (stars : List StarData) (i : ℕ)
    (hi : i < stars.length)
    (h : (stars.getD i dStar).mass = some 0 ∨ (stars.getD i dStar).mass = none) :
    computeStarLayout (stars.set i { stars.getD i dStar with mass := some 1 })
      = computeStarLayout stars := by
  have hmass : effMass (some 1) = effMass ((stars.getD i dStar).mass) := by
    rcases h with h | h <;> rw [h] <;> norm_num [effMass]
  apply computeStarLayout_congr
  · exact List.length_set stars i _
  · apply starInfos_set stars i _ hi
    · exact primaryInfo_congr _ _ rfl rfl hmass
    · exact secondaryInfo_congr _ _ rfl rfl hmass
  · exact map_set_getD stars i _ dStar (fun s => s.orbitRadius) rfl hi

/-- A star whose stored mass is the falsy value 0. -/
def starZero : StarData := { starA with mass := some 0 }

theorem computeStarLayout_mass_default_witness :
    (0 < ([starZero, starB] : List StarData).length ∧
      (([starZero, starB] : List StarData).getD 0 dStar).mass = some 0) ∧
    computeStarLayout
        ([starZero, starB].set 0
          { ([starZero, starB] : List StarData).getD 0 dStar with mass := some 1 })
      = computeStarLayout [starZero, starB] :=
  ⟨⟨by simp, rfl⟩,
    computeStarLayout_mass_default [starZero, starB] 0 (by simp) (Or.inl rfl)⟩

lemma sum_exp_angles (N : ℕ) (hN : 2 ≤ N) (t : ℝ) :
    ∑ i ∈ Finset.range N,
      Complex.exp (((t + 2 * Real.pi * i / N : ℝ) : ℂ) * Complex.I) = 0 := by
  set z : ℂ := Complex.exp (((2 * Real.pi / N : ℝ) : ℂ) * Complex.I) with hz
  have hterm : ∀ i ∈ Finset.range N,
      Complex.exp (((t + 2 * Real.pi * i / N : ℝ) : ℂ) * Complex.I)
        = Complex.exp (((t : ℝ) : ℂ) * Complex.I) * z ^ i := by
    intro i _
    rw [hz, ← Complex.exp_nat_mul, ← Complex.exp_add]
    congr 1
    push_cast
    ring
  have hz1 : z ≠ 1 := by
    intro hcontra
    rw [hz, Complex.exp_eq_one_iff] at hcontra
    rcases hcontra with ⟨n, hn⟩
    rw [show (n : ℂ) * (2 * (Real.pi : ℂ) * Complex.I)
      = ((n : ℂ) * (2 * (Real.pi : ℂ))) * Complex.I by ring] at hn
    have hn2 : ((2 * Real.pi / N : ℝ) : ℂ) = (n : ℂ) * (2 * (Real.pi : ℂ)) :=
      mul_right_cancel₀ Complex.I_ne_zero hn
    have hNR : (2 : ℝ) ≤ N := by exact_mod_cast hN
    have him2 : 2 * Real.pi / N = n * (2 * Real.pi) := by exact_mod_cast hn2
    rcases le_or_lt n 0 with hn0 | hn0
    · have h1 : (n : ℝ) ≤ 0 := by exact_mod_cast hn0
      have h2 : 0 < 2 * Real.pi / N := by positivity
      nlinarith [Real.pi_pos]
    · have h1 : (1 : ℝ) ≤ n := by exact_mod_cast hn0
      have h2 : 2 * Real.pi / N ≤ Real.pi := by
        rw [div_le_iff₀ (by linarith : (0 : ℝ) < N)]
        nlinarith [Real.pi_pos]
      nlinarith [Real.pi_pos]
  have hzN : z ^ N = 1 := by
    have hN0 : (N : ℂ) ≠ 0 := Nat.cast_ne_zero.mpr (by omega)
    rw [hz, ← Complex.exp_nat_mul]
    have harg : (N : ℂ) * (((2 * Real.pi / N : ℝ) : ℂ) * Complex.I)
        = 2 * (Real.pi : ℂ) * Complex.I := by
      push_cast
      field_simp
    rw [harg]
    exact Complex.exp_two_pi_mul_I
  rw [Finset.sum_congr rfl hterm, ← Finset.mul_sum, geom_sum_eq hz1, hzN]
  simp

lemma sum_cos_angles (N : ℕ) (hN : 2 ≤ N) (t : ℝ) :
    ∑ i ∈ Finset.range N, Real.cos (t + 2 * Real.pi * i / N) = 0 := by
  have h := congrArg Complex.re (sum_exp_angles N hN t)
  rw [Complex.re_sum] at h
  simp only [Complex.exp_ofReal_mul_I_re] at h
  simpa using h

lemma sum_sin_angles (N : ℕ) (hN : 2 ≤ N) (t : ℝ) :
    ∑ i ∈ Finset.range N, Real.sin (t + 2 * Real.pi * i / N) = 0 := by
  have h := congrArg Complex.im (sum_exp_angles N hN t)
  rw [Complex.im_sum] at h
  simp only [Complex.exp_ofReal_mul_I_im] at h
  simpa using h

/-- C6: for at least two stars with positive masses, placing star `i` at
angle `t + 2πi/N` on a circle of its returned orbit radius makes the
mass-weighted position sum exactly `(0, 0, 0)`, for every phase `t`. -/
theorem computeStarLayout_barycenter (stars : List StarData) (t : ℝ)
    (hN : 2 ≤ stars.length)
    (hm : ∀ s ∈ stars, ∃ m, s.mass = some m ∧ 0 < m) :
    (∑ i ∈ Finset.range stars.length,
      effMass ((stars.getD i dStar).mass)
        * (starPosition (computeStarLayout stars).orbitRadii
            stars.length t i).1 = 0) ∧
    (∑ i ∈ Finset.range stars.length,
      effMass ((stars.getD i dStar).mass)
        * (starPosition (computeStarLayout stars).orbitRadii
            stars.length t i).2.1 = 0) ∧
    (∑ i ∈ Finset.range stars.length,
      effMass ((stars.getD i dStar).mass)
        * (starPosition (computeStarLayout stars).orbitRadii
            stars.length t i).2.2 = 0) := by
  have key : ∀ i ∈ Finset.range stars.length,
      effMass ((stars.getD i dStar).mass)
        * (computeStarLayout stars).orbitRadii.getD i 0 = layoutK stars := by
    intro i hi
    rw [Finset.mem_range] at hi
    rw [orbitRadii_getD stars hN i hi, ← starInfos_getD_mass stars i hi]
    have hmi := starInfos_mass_pos stars hm i hi
    rw [mul_comm, div_mul_cancel₀ _ (ne_of_gt hmi)]
  refine ⟨?_, ?_, ?_⟩
  · have hterm : ∀ i ∈ Finset.range stars.length,
        effMass ((stars.getD i dStar).mass)
          * (starPosition (computeStarLayout stars).orbitRadii
              stars.length t i).1
        = layoutK stars * Real.cos (t + 2 * Real.pi * i / stars.length) := by
      intro i hi
      show effMass ((stars.getD i dStar).mass)
        * ((computeStarLayout stars).orbitRadii.getD i 0
          * Real.cos (t + 2 * Real.pi * i / stars.length)) = _
      rw [← mul_assoc, key i hi]
    rw [Finset.sum_congr rfl hterm, ← Finset.mul_sum,
      sum_cos_angles stars.length hN t, mul_zero]
  · simp [starPosition]
  · have hterm : ∀ i ∈ Finset.range stars.length,
        effMass ((stars.getD i dStar).mass)
          * (starPosition (computeStarLayout stars).orbitRadii
              stars.length t i).2.2
        = layoutK stars * Real.sin (t + 2 * Real.pi * i / stars.length) := by
      intro i hi
      show effMass ((stars.getD i dStar).mass)
        * ((computeStarLayout stars).orbitRadii.getD i 0
          * Real.sin (t + 2 * Real.pi * i / stars.length)) = _
      rw [← mul_assoc, key i hi]
    rw [Finset.sum_congr rfl hterm, ← Finset.mul_sum,
      sum_sin_angles stars.length hN t, mul_zero]

theorem computeStarLayout_barycenter_witness :
    (2 ≤ ([starA, starB] : List StarData).length ∧
      ∀ s ∈ [starA, starB], ∃ m, s.mass = some m ∧ 0 < m) ∧
    (∑ i ∈ Finset.range 2,
      effMass ((([starA, starB] : List StarData).getD i dStar).mass)
        * (starPosition (computeStarLayout [starA, starB]).orbitRadii
            2 0 i).1 = 0) ∧
    (∑ i ∈ Finset.range 2,
      effMass ((([starA, starB] : List StarData).getD i dStar).mass)
        * (starPosition (computeStarLayout [starA, starB]).orbitRadii
            2 0 i).2.1 = 0) ∧
    (∑ i ∈ Finset.range 2,
      effMass ((([starA, starB] : List StarData).getD i dStar).mass)
        * (starPosition (computeStarLayout [starA, starB]).orbitRadii
            2 0 i).2.2 = 0) := by
  have hmass : ∀ s ∈ [starA, starB], ∃ m, s.mass = some m ∧ 0 < m := by
    intro s hs
    simp only [List.mem_cons, List.not_mem_nil, or_false] at hs
    rcases hs with rfl | rfl
    · exact ⟨1, rfl, one_pos⟩
    · exact ⟨1, rfl, one_pos⟩
  exact ⟨⟨by simp, hmass⟩,
    computeStarLayout_barycenter [starA, starB] 0 (by simp) hmass⟩

/-- Strips the fields the layout geometry never reads (name, spectral and
luminosity class, temperature, orbit angle), keeping radius, mass and the
orbitRadius hint. -/
def scrub (s : StarData) : StarData :=
  { name := "", spectralClass := "", luminosityClass := "",
    surfaceTemperature := 0, radius := s.radius, mass := s.mass,
    orbitRadius := s.orbitRadius, orbitAngle := none }

/-- Replaces an info's color by the color of a blank spectral class,
keeping the geometry fields untouched. -/
def recolor (info : StarInfo) : StarInfo :=
  { displayR := info.displayR, color := spectralColor "", mass := info.mass }

lemma primaryInfo_scrub (s : StarData) :
    primaryInfo (scrub s) = recolor (primaryInfo s) := by
  simp [primaryInfo, recolor, scrub]

lemma secondaryInfo_scrub (s : StarData) :
    secondaryInfo (scrub s) = recolor (secondaryInfo s) := by
  simp [secondaryInfo, recolor, scrub]

lemma starInfos_scrub (stars : List StarData) :
    starInfos (stars.map scrub) = (starInfos stars).map recolor := by
  cases stars with
  | nil => rfl
  | cons s rest =>
    show primaryInfo (scrub s) :: (rest.map scrub).map secondaryInfo
      = recolor (primaryInfo s) :: (rest.map secondaryInfo).map recolor
    rw [primaryInfo_scrub, List.map_map, List.map_map]
    have h : (secondaryInfo ∘ scrub) = (recolor ∘ secondaryInfo) :=
      funext fun x => secondaryInfo_scrub x
    rw [h]

lemma recolor_getD (l : List StarInfo) (i : ℕ) :
    (l.map recolor).getD i dStarInfo = recolor (l.getD i dStarInfo) := by
  by_cases h : i < l.length
  · have h2 : i < (l.map recolor).length := by simpa using h
    rw [List.getD_eq_getElem _ _ h2, List.getElem_map,
      List.getD_eq_getElem _ _ h]
  · push_neg at h
    rw [List.getD_eq_default _ _ (by simpa using h), List.getD_eq_default _ _ h]
    rfl

lemma pairCoeff_recolor (l : List StarInfo) (N i : ℕ) :
    pairCoeff (l.map recolor) N i = pairCoeff l N i := by
  unfold pairCoeff
  simp only [recolor_getD]
  rfl

lemma pairRequiredDist_recolor (l : List StarInfo) (N i : ℕ) :
    pairRequiredDist (l.map recolor) N i = pairRequiredDist l N i := by
  unfold pairRequiredDist
  simp only [recolor_getD]
  rfl

lemma collisionK_recolor (l : List StarInfo) (N : ℕ) :
    collisionK (l.map recolor) N = collisionK l N := by
  unfold collisionK
  have h : (fun acc i => if 0 < pairCoeff (l.map recolor) N i then
      max acc (pairRequiredDist (l.map recolor) N i / pairCoeff (l.map recolor) N i)
      else acc)
    = fun acc i => if 0 < pairCoeff l N i then
      max acc (pairRequiredDist l N i / pairCoeff l N i) else acc := by
    funext acc i
    rw [pairCoeff_recolor, pairRequiredDist_recolor]
  rw [h]

lemma totalMassOf_recolor (l : List StarInfo) :
    totalMassOf (l.map recolor) = totalMassOf l := by
  unfold totalMassOf
  rw [List.map_map]
  rfl

lemma dataOrbitK_scrub (stars : List StarData) (l : List StarInfo) (tm : ℝ) :
    dataOrbitK (stars.map scrub) (l.map recolor) tm = dataOrbitK stars l tm := by
  unfold dataOrbitK
  rw [List.map_map, show ((fun s => s.orbitRadius.getD 0 * 20) ∘ scrub)
    = fun s : StarData => s.orbitRadius.getD 0 * 20 from rfl]
  simp only [List.length_map, recolor_getD]
  rfl

lemma layoutK_scrub (stars : List StarData) :
    layoutK (stars.map scrub) = layoutK stars := by
  unfold layoutK
  rw [starInfos_scrub, List.length_map, collisionK_recolor,
    totalMassOf_recolor, dataOrbitK_scrub]

lemma computeStarLayout_orbitRadii_small (stars : List StarData)
    (h : stars.length ≤ 1) : (computeStarLayout stars).orbitRadii = [0] := by
  simp [computeStarLayout, h]

lemma computeStarLayout_maxExtent_small (stars : List StarData)
    (h : stars.length ≤ 1) :
    (computeStarLayout stars).maxExtent
      = ((starInfos stars).head?.map StarInfo.displayR).getD 0.6 := by
  simp [computeStarLayout, h]

lemma computeStarLayout_maxExtent (stars : List StarData)
    (hN : 2 ≤ stars.length) :
    (computeStarLayout stars).maxExtent
      = listMax ((starInfos stars).map
          fun info => layoutK stars / info.mass + info.displayR) := by
  have h : ¬ stars.length ≤ 1 := by omega
  simp [computeStarLayout, h]

lemma displayR_scrub (stars : List StarData) :
    (computeStarLayout (stars.map scrub)).infos.map StarInfo.displayR
      = (computeStarLayout stars).infos.map StarInfo.displayR := by
  rw [computeStarLayout_infos, computeStarLayout_infos, starInfos_scrub,
    List.map_map]
  rfl

lemma orbitRadii_scrub (stars : List StarData) :
    (computeStarLayout (stars.map scrub)).orbitRadii
      = (computeStarLayout stars).orbitRadii := by
  by_cases h : stars.length ≤ 1
  · rw [computeStarLayout_orbitRadii_small _ (by simpa using h),
      computeStarLayout_orbitRadii_small _ h]
  · have hN : 2 ≤ stars.length := by omega
    have hN2 : 2 ≤ (stars.map scrub).length := by simpa using hN
    rw [computeStarLayout_orbitRadii _ hN2, computeStarLayout_orbitRadii _ hN,
      starInfos_scrub, layoutK_scrub, List.map_map]
    rfl

lemma maxExtent_scrub (stars : List StarData) :
    (computeStarLayout (stars.map scrub)).maxExtent
      = (computeStarLayout stars).maxExtent := by
  by_cases h : stars.length ≤ 1
  · rw [computeStarLayout_maxExtent_small _ (by simpa using h),
      computeStarLayout_maxExtent_small _ h, starInfos_scrub,
      List.head?_map, Option.map_map]
    rfl
  · have hN : 2 ≤ stars.length := by omega
    have hN2 : 2 ≤ (stars.map scrub).length := by simpa using hN
    rw [computeStarLayout_maxExtent _ hN2, computeStarLayout_maxExtent _ hN,
      starInfos_scrub, layoutK_scrub, List.map_map]
    rfl

/-- C10: two star lists of equal length agreeing pairwise on physical
radius, mass and orbitRadius hint get identical display radii, orbit radii
and maxExtent, regardless of spectral class (and of every other
non-geometric field): only the colors may differ. -/
theorem computeStarLayout_spectral_independent (s₁ s₂ : List StarData)
    (hlen : s₁.length = s₂.length)
    (hrad : ∀ i, (s₁.getD i dStar).radius = (s₂.getD i dStar).radius)
    (hmass : ∀ i, (s₁.getD i dStar).mass = (s₂.getD i dStar).mass)
    (hhint : ∀ i, (s₁.getD i dStar).orbitRadius = (s₂.getD i dStar).orbitRadius) :
    (computeStarLayout s₁).infos.map StarInfo.displayR
      = (computeStarLayout s₂).infos.map StarInfo.displayR ∧
    (computeStarLayout s₁).orbitRadii = (computeStarLayout s₂).orbitRadii ∧
    (computeStarLayout s₁).maxExtent = (computeStarLayout s₂).maxExtent := by
  have hscrub : s₁.map scrub = s₂.map scrub := by
    apply List.ext_getElem (by simpa using hlen)
    intro n h1 h2
    have hn1 : n < s₁.length := by simpa using h1
    have hn2 : n < s₂.length := by simpa using h2
    rw [List.getElem_map, List.getElem_map,
      ← List.getD_eq_getElem s₁ dStar hn1, ← List.getD_eq_getElem s₂ dStar hn2]
    unfold scrub
    rw [hrad n, hmass n, hhint n]
  refine ⟨?_, ?_, ?_⟩
  · rw [← displayR_scrub s₁, ← displayR_scrub s₂, hscrub]
  · rw [← orbitRadii_scrub s₁, ← orbitRadii_scrub s₂, hscrub]
  · rw [← maxExtent_scrub s₁, ← maxExtent_scrub s₂, hscrub]

/-- `starA` with a different name and spectral class. -/
def starA2 : StarData := { starA with name := "A2", spectralClass := "O" }

/-- `starB` with a different spectral class and temperature. -/
def starB2 : StarData :=
  { starB with spectralClass := "K", surfaceTemperature := 9000 }

theorem computeStarLayout_spectral_independent_witness :
    (([starA, starB] : List StarData).length
        = ([starA2, starB2] : List StarData).length ∧
      (∀ i, (([starA, starB] : List StarData).getD i dStar).radius
        = (([starA2, starB2] : List StarData).getD i dStar).radius) ∧
      (∀ i, (([starA, starB] : List StarData).getD i dStar).mass
        = (([starA2, starB2] : List StarData).getD i dStar).mass) ∧
      (∀ i, (([starA, starB] : List StarData).getD i dStar).orbitRadius
        = (([starA2, starB2] : List StarData).getD i dStar).orbitRadius)) ∧
    (computeStarLayout [starA, starB]).infos.map StarInfo.displayR
      = (computeStarLayout [starA2, starB2]).infos.map StarInfo.displayR ∧
    (computeStarLayout [starA, starB]).orbitRadii
      = (computeStarLayout [starA2, starB2]).orbitRadii ∧
    (computeStarLayout [starA, starB]).maxExtent
      = (computeStarLayout [starA2, starB2]).maxExtent := by
  have hrad : ∀ i, (([starA, starB] : List StarData).getD i dStar).radius
      = (([starA2, starB2] : List StarData).getD i dStar).radius := by
    intro i
    rcases i with _ | _ | i <;> rfl
  have hmass : ∀ i, (([starA, starB] : List StarData).getD i dStar).mass
      = (([starA2, starB2] : List StarData).getD i dStar).mass := by
    intro i
    rcases i with _ | _ | i <;> rfl
  have hhint : ∀ i, (([starA, starB] : List StarData).getD i dStar).orbitRadius
      = (([starA2, starB2] : List StarData).getD i dStar).orbitRadius := by
    intro i
    rcases i with _ | _ | i <;> rfl
  exact ⟨⟨rfl, hrad, hmass, hhint⟩,
    computeStarLayout_spectral_independent [starA, starB] [starA2, starB2]
      rfl hrad hmass hhint⟩

/-- C8: the cylindrical-to-Cartesian converter satisfies
`x = d·cos(θ·π/180)`, `y = elevation`, `z = d·sin(θ·π/180)`, and for
`d > 0` applying `atan2(z, x)` (converted back to degrees) recovers the
azimuth modulo 360 degrees. -/
theorem cylToCartesian_spec (θ d elev : ℝ) (hd : 0 < d) :
    (cylToCartesian θ d elev).1 = d * Real.cos (θ * (Real.pi / 180)) ∧
    (cylToCartesian θ d elev).2.1 = elev ∧
    (cylToCartesian θ d elev).2.2 = d * Real.sin (θ * (Real.pi / 180)) ∧
    ∃ n : ℤ, atan2 (cylToCartesian θ d elev).2.2 (cylToCartesian θ d elev).1
        * (180 / Real.pi) = θ + 360 * n := by
  refine ⟨rfl, rfl, rfl, ?_⟩
  set φ := θ * (Real.pi / 180) with hφ
  have hxz : ((d * Real.cos φ : ℝ) : ℂ) + ((d * Real.sin φ : ℝ) : ℂ) * Complex.I
      = (d : ℂ) * (Complex.cos (φ : ℂ) + Complex.sin (φ : ℂ) * Complex.I) := by
    push_cast
    ring
  have harg := Complex.arg_mul_cos_add_sin_mul_I_sub hd φ
  refine ⟨⌊(Real.pi - φ) / (2 * Real.pi)⌋, ?_⟩
  have hatan : atan2 (cylToCartesian θ d elev).2.2 (cylToCartesian θ d elev).1
      = φ + 2 * Real.pi * (⌊(Real.pi - φ) / (2 * Real.pi)⌋ : ℤ) := by
    show Complex.arg (((d * Real.cos φ : ℝ) : ℂ)
      + ((d * Real.sin φ : ℝ) : ℂ) * Complex.I) = _
    rw [hxz]
    linarith [harg]
  rw [hatan, hφ]
  have hπ : Real.pi ≠ 0 := Real.pi_ne_zero
  field_simp
  ring

theorem cylToCartesian_spec_witness :
    (0 : ℝ) < 1 ∧
    ((cylToCartesian 45 1 2).1 = 1 * Real.cos ((45 : ℝ) * (Real.pi / 180)) ∧
    (cylToCartesian 45 1 2).2.1 = 2 ∧
    (cylToCartesian 45 1 2).2.2 = 1 * Real.sin ((45 : ℝ) * (Real.pi / 180)) ∧
    ∃ n : ℤ, atan2 (cylToCartesian 45 1 2).2.2 (cylToCartesian 45 1 2).1
        * (180 / Real.pi) = 45 + 360 * n) :=
  ⟨by norm_num, cylToCartesian_spec 45 1 2 (by norm_num)⟩

end GalaxyMap
